import Mathlib

/-!
Verification development for the OGC API Tiles source of mapproxy
(mapproxy/source/ogcapitiles.py).

The Python module is shallowly embedded below: Python strings are Lean
strings (whose data is a list of characters), Python dicts that preserve
insertion order are association lists, network effects are threaded
explicitly as a trace of network operations, and raised exceptions are
modelled with an error type returned through Except.  External
collaborators of the module (the HTTP client, the tile-grid builder, the
CRS authority-code converter, coverage and resolution-range predicates)
are parameters of the model, collected in an environment record.
-/

set_option maxRecDepth 4000

/-- A typed link object as found in the JSON documents: rel, optional
declared media type, and href. -/
structure Link where
  rel : String
  type? : Option String
  href : String
  deriving DecidableEq, Repr

/-- One entry of a tilesets-map response: dataType tag, CRS identifier and
its links. -/
structure Tileset where
  dataType : String
  crs : String
  links : List Link
  deriving DecidableEq, Repr

/-- A resolved tile grid, as produced by the external grid builder.  Only
the fields the source reads are modelled: name, srs code and tile pixel
size. -/
structure Grid where
  name : String
  srs : String
  tile_size : Nat × Nat
  deriving DecidableEq, Repr

/-- A parsed JSON document, restricted to the fields the source reads: an
optional links list, an optional tilesets list, and an abstract payload
standing for the tile-matrix-set content handed to the grid builder. -/
structure Doc where
  links? : Option (List Link) := none
  tilesets? : Option (List Tileset) := none
  tms : Nat := 0
  deriving DecidableEq, Repr

/-- Outcome of one http_client.open plus JSON parse of the body. -/
inductive FetchResult where
  | httpError (msg : String)
  | badJson (msg : String)
  | doc (d : Doc)
  deriving DecidableEq, Repr

/-- Errors raised by the embedded code.  sourceError models SourceError,
blankImage models BlankImage, and pythonError models unhandled Python
runtime errors such as AttributeError or ValueError. -/
inductive Err where
  | sourceError (msg : String)
  | blankImage
  | pythonError (msg : String)
  deriving DecidableEq, Repr

/-- A network operation issued by the source: a JSON GET or a tile image
GET. -/
inductive NetOp where
  | get (url : String)
  | getImage (url : String)
  deriving DecidableEq, Repr

/-- Source translation of the module-level loop in _find_href_in_links:
the running value of the local variable href is the accumulator; a link
whose rel matches and whose declared type equals the preferred media type
breaks the loop, an untyped matching link is kept only when the
accumulator is still empty. -/
def find_href_loop (rel preferred_media_type : String) :
    List Link → Option String → Option String
  | [], href => href
  | link :: rest, href =>
    if link.rel = rel then
      match link.type? with
      | some t =>
        if t = preferred_media_type then some link.href
        else find_href_loop rel preferred_media_type rest href
      | none =>
        if href = none then
          find_href_loop rel preferred_media_type rest (some link.href)
        else
          find_href_loop rel preferred_media_type rest href
    else find_href_loop rel preferred_media_type rest href

/-- Embedding of _find_href_in_links. -/
def find_href_in_links (links : List Link) (rel preferred_media_type : String) :
    Option String :=
  find_href_loop rel preferred_media_type links none

/-- Embedding of _normalize_srs_code. -/
def normalize_srs_code (srs_code : String) : String :=
  if srs_code = "OGC:CRS84" then "EPSG:4326" else srs_code

/-- Python truthiness test for a value that is either None or a string:
the `if not x` guards in the source treat None and the empty string as
falsy. -/
def py_not_str : Option String → Bool
  | none => true
  | some s => s = ""

/-- First-occurrence split of a character list on a separator, the model
of the Python str.split(sep, 1) call used by _build_url: returns the part
before the first occurrence of the separator and the part after it, or
none when the separator does not occur. -/
def splitOnceL (sep : List Char) : List Char → Option (List Char × List Char)
  | [] => none
  | c :: cs =>
    if sep.isPrefixOf (c :: cs) then some ([], (c :: cs).drop sep.length)
    else
      match splitOnceL sep cs with
      | none => none
      | some (a, b) => some (c :: a, b)

/-- String wrapper around splitOnceL. -/
def splitOnce (s sep : String) : Option (String × String) :=
  match splitOnceL sep.data s.data with
  | none => none
  | some (a, b) => some (⟨a⟩, ⟨b⟩)

/-- Model of the Python str.startswith test. -/
def py_startswith (s pre : String) : Bool :=
  pre.data.isPrefixOf s.data

/-- Embedding of OGCAPITilesSource._build_url.  A root-relative href is
resolved against scheme and host of the landing page URL; any other href
is returned unchanged.  The result is none exactly when Python would
raise a ValueError unpacking the split of a landing page URL that does
not contain the scheme separator. -/
def build_url (landingpage_url href : String) : Option String :=
  if py_startswith href "/" then
    match splitOnce landingpage_url "://" with
    | none => none
    | some (schema, rest) =>
      let host :=
        match splitOnce rest "/" with
        | some (h, _) => h
        | none => rest
      some (schema ++ "://" ++ host ++ href)
  else some href

/-- Configuration of one OGCAPITilesSource instance: the constructor
arguments that the embedded methods read.  Coverage, resolution range and
the error handler are external predicate objects and are modelled as
functions; the bounding box is an abstract token since the source only
passes it through to external predicates. -/
structure Config where
  landingpage_url : String
  collection : Option String
  coverage : Option (Nat → String → Bool)
  res_range : Option (Nat → (Nat × Nat) → String → Bool)
  error_handler : Option (Nat → Nat → Option Nat)

/-- External collaborators: the HTTP client (JSON fetch and image fetch),
the tile-grid builder tile_grid_from_ogc_tile_matrix_set, the affected
tile computation of a grid object, and ogc_crs_url_to_auth_code. -/
structure Env where
  fetch : String → FetchResult
  open_image : String → Except (Nat × String) Nat
  tile_grid : Doc → Except String Grid
  affected : Grid → Nat → (Nat × Nat) → Nat × (Nat × Nat) × List (Nat × Nat × Nat)
  authCode : String → String

/-- Mutable state of one source instance: the discovery flag and the two
insertion-ordered maps. -/
structure SourceState where
  init_done : Bool
  map_crs_to_tilesets_list : List (String × List Tileset)
  map_srs_to_grid_and_template_url : List (String × (Grid × String))
  deriving DecidableEq, Repr

/-- First-match lookup in an insertion-ordered association list, the
model of a Python dict read. -/
def lookupA {α : Type} (m : List (String × α)) (k : String) : Option α :=
  match m with
  | [] => none
  | (k', v) :: rest => if k' = k then some v else lookupA rest k

/-- Model of the dict update in the discovery loop: create the bucket for
a new key at the end of the map, then append the tileset to its bucket. -/
def append_to_bucket (m : List (String × List Tileset)) (k : String) (t : Tileset) :
    List (String × List Tileset) :=
  match m with
  | [] => [(k, [t])]
  | (k', b) :: rest =>
    if k' = k then (k', b ++ [t]) :: rest
    else (k', b) :: append_to_bucket rest k t

/-- Embedding of the tileset grouping loop of _initialize: entries whose
dataType is not map are skipped, the rest are appended to the bucket of
their normalized authority code. -/
def add_tilesets (authCode : String → String) (m : List (String × List Tileset)) :
    List Tileset → List (String × List Tileset)
  | [] => m
  | t :: rest =>
    if t.dataType ≠ "map" then add_tilesets authCode m rest
    else add_tilesets authCode
      (append_to_bucket m (normalize_srs_code (authCode t.crs)) t) rest

/-- The tilesets-map link relation used by _initialize. -/
def tilesets_map_rel : String := "http://www.opengis.net/def/rel/ogc/1.0/tilesets-map"

/-- The tiling-scheme link relation used by single-tileset resolution. -/
def tiling_scheme_rel : String := "http://www.opengis.net/def/rel/ogc/1.0/tiling-scheme"

/-- Model of a call self._build_url(x) where x may be None: Python raises
an AttributeError calling startswith on None, and a ValueError when the
landing page URL has no scheme separator. -/
def build_url_py (cfg : Config) (href : Option String) : Except Err String :=
  match href with
  | none => .error (.pythonError "AttributeError: NoneType object has no attribute startswith")
  | some h =>
    match build_url cfg.landingpage_url h with
    | none => .error (.pythonError "ValueError: not enough values to unpack")
    | some u => .ok u

/-- The URL of the collection resource fetched by _initialize. -/
def collection_url (cfg : Config) : String :=
  match cfg.collection with
  | some c => cfg.landingpage_url ++ "/collections/" ++ c
  | none => cfg.landingpage_url

/-- Embedding of OGCAPITilesSource._initialize.  The init_done flag is
set before any network work, so the method body runs at most once per
instance even when discovery fails.  The returned list is the trace of
network operations issued by the call.  The name initDiscovery stands for
the source method _initialize. -/
def initDiscovery (cfg : Config) (env : Env) (st : SourceState) :
    Except Err Unit × SourceState × List NetOp :=
  if st.init_done then (.ok (), st, [])
  else
    let st1 : SourceState := { st with init_done := true }
    let url := collection_url cfg
    match env.fetch url with
    | .httpError m => (.error (.sourceError m), st1, [.get url])
    | .badJson m => (.error (.sourceError m), st1, [.get url])
    | .doc j =>
      match j.links? with
      | none =>
        (.error (.sourceError ("Could not retrieve links in " ++ url ++ " response")),
          st1, [.get url])
      | some links =>
        let tilesets_map_href := find_href_in_links links tilesets_map_rel "application/json"
        if py_not_str tilesets_map_href then
          (.error (.sourceError ("Could not retrieve a tilesets-map link in " ++ url ++ " response")),
            st1, [.get url])
        else
          match build_url_py cfg tilesets_map_href with
          | .error e => (.error e, st1, [.get url])
          | .ok tilesets_map_url =>
            match env.fetch tilesets_map_url with
            | .httpError m => (.error (.sourceError m), st1, [.get url, .get tilesets_map_url])
            | .badJson m => (.error (.sourceError m), st1, [.get url, .get tilesets_map_url])
            | .doc j2 =>
              match j2.tilesets? with
              | none =>
                (.error (.sourceError ("Could not retrieve tilesets in " ++ tilesets_map_url ++ " response")),
                  st1, [.get url, .get tilesets_map_url])
              | some ts =>
                (.ok (),
                  { st1 with map_crs_to_tilesets_list :=
                      add_tilesets env.authCode st1.map_crs_to_tilesets_list ts },
                  [.get url, .get tilesets_map_url])

/-- Embedding of _get_grid_and_template_url_from_tileset.  The second
falsy guard of the source tests tiling_scheme_href again instead of
tileset_href, exactly as the code does, so a missing self link reaches
the _build_url call with None. -/
def get_grid_and_template_url_from_tileset (cfg : Config) (env : Env)
    (tileset : Tileset) (image_mime_type : String) :
    Except Err (Grid × String) × List NetOp :=
  let links := tileset.links
  let tiling_scheme_href := find_href_in_links links tiling_scheme_rel "application/json"
  if py_not_str tiling_scheme_href then
    (.error (.sourceError "Could not retrieve a tiling-scheme link for tileset"), [])
  else
    match build_url_py cfg tiling_scheme_href with
    | .error e => (.error e, [])
    | .ok tiling_scheme_url =>
      let tileset_href := find_href_in_links links "self" "application/json"
      if py_not_str tiling_scheme_href then
        (.error (.sourceError "Could not retrieve a self link for tileset"), [])
      else
        match build_url_py cfg tileset_href with
        | .error e => (.error e, [])
        | .ok tileset_url =>
          match env.fetch tiling_scheme_url with
          | .httpError m => (.error (.sourceError m), [.get tiling_scheme_url])
          | .badJson m => (.error (.sourceError m), [.get tiling_scheme_url])
          | .doc tile_matrix_set =>
            match env.tile_grid tile_matrix_set with
            | .error m => (.error (.pythonError m), [.get tiling_scheme_url])
            | .ok grid =>
              match env.fetch tileset_url with
              | .httpError m =>
                (.error (.sourceError m), [.get tiling_scheme_url, .get tileset_url])
              | .badJson m =>
                (.error (.sourceError m), [.get tiling_scheme_url, .get tileset_url])
              | .doc tileset_full =>
                match tileset_full.links? with
                | none =>
                  (.error (.pythonError "KeyError: links"),
                    [.get tiling_scheme_url, .get tileset_url])
                | some full_links =>
                  let template_href := find_href_in_links full_links "item" image_mime_type
                  if py_not_str template_href then
                    (.error (.sourceError "Could not retrieve a tile template URL for tileset"),
                      [.get tiling_scheme_url, .get tileset_url])
                  else
                    match build_url_py cfg template_href with
                    | .error e => (.error e, [.get tiling_scheme_url, .get tileset_url])
                    | .ok template_url =>
                      (.ok (grid, template_url), [.get tiling_scheme_url, .get tileset_url])

/-- The candidate loop of _get_grid_and_template_url_from_srs over one
bucket: any exception from a candidate is swallowed and the scan
continues; the loop breaks at the first success. -/
def scan_tilesets (cfg : Config) (env : Env) (image_mime_type : String) :
    List Tileset → Option (Grid × String) × List NetOp
  | [] => (none, [])
  | t :: rest =>
    match get_grid_and_template_url_from_tileset cfg env t image_mime_type with
    | (.ok v, tr) => (some v, tr)
    | (.error _, tr) =>
      let r := scan_tilesets cfg env image_mime_type rest
      (r.1, tr ++ r.2)

/-- The fallback loop of _get_grid_and_template_url_from_srs over every
bucket in map insertion order, taken when the requested CRS has no exact
bucket. -/
def scan_all_tilesets (cfg : Config) (env : Env) (image_mime_type : String) :
    List (String × List Tileset) → Option (Grid × String) × List NetOp
  | [] => (none, [])
  | (_, bucket) :: rest =>
    match scan_tilesets cfg env image_mime_type bucket with
    | (some v, tr) => (some v, tr)
    | (none, tr) =>
      let r := scan_all_tilesets cfg env image_mime_type rest
      (r.1, tr ++ r.2)

/-- The cache-miss part of _get_grid_and_template_url_from_srs: scan the
exact bucket when the normalized code has one, otherwise scan every
bucket in map insertion order. -/
def run_candidate_scan (cfg : Config) (env : Env) (st : SourceState)
    (srs_code image_mime_type : String) : Option (Grid × String) × List NetOp :=
  match lookupA st.map_crs_to_tilesets_list srs_code with
  | some bucket => scan_tilesets cfg env image_mime_type bucket
  | none => scan_all_tilesets cfg env image_mime_type st.map_crs_to_tilesets_list

/-- Embedding of _get_grid_and_template_url_from_srs.  A cache hit is
returned at once; on a miss the exact bucket is scanned when present,
otherwise every bucket is scanned, and the first success is stored in the
cache before it is returned.  The query SRS is modelled by its code
string. -/
def get_grid_and_template_url_from_srs (cfg : Config) (env : Env) (st : SourceState)
    (query_srs image_mime_type : String) :
    Except Err (Grid × String) × SourceState × List NetOp :=
  let srs_code := normalize_srs_code query_srs
  let key := srs_code ++ "/" ++ image_mime_type
  match lookupA st.map_srs_to_grid_and_template_url key with
  | some v => (.ok v, st, [])
  | none =>
    match run_candidate_scan cfg env st srs_code image_mime_type with
    | (none, tr) =>
      (.error (.sourceError ("Cannot find a valid tile matrix set for " ++ query_srs)), st, tr)
    | (some v, tr) =>
      (.ok v,
        { st with map_srs_to_grid_and_template_url :=
            st.map_srs_to_grid_and_template_url ++ [(key, v)] },
        tr)

/-- An incoming map query: abstract bounding box token, pixel size, SRS
code and image format suffix. -/
structure MapQuery where
  bbox : Nat
  size : Nat × Nat
  srs : String
  format : String
  deriving DecidableEq, Repr

/-- The synthetic cache configuration built by the slow path of get_map:
the cache_conf dict together with the fake grid and source wiring that
exposes exactly one named grid and one named source. -/
structure CacheConf where
  name : String
  sources : List String
  grids : List String
  grid_def : Grid
  grid_srs_conf : String
  deriving DecidableEq, Repr

/-- Result of a get_map call: a fetched tile image or the answer of the
cache-backed layer built around the synthetic configuration. -/
inductive MapResult where
  | image (img : Nat)
  | delegated (conf : CacheConf) (q : MapQuery)
  deriving DecidableEq, Repr

/-- Modelled from the spec: CacheConfiguration and CacheMapLayer live in
mapproxy.config.loader and mapproxy.layer, which are not under src.  The
spec consumes them as a black box that builds a cache-backed map layer
from one synthetic grid and one synthetic source and then answers the
query; the model records the synthetic configuration and the delegated
query as the answer. -/
def cache_map_layer_get_map (conf : CacheConf) (q : MapQuery) : Except Err MapResult :=
  .ok (.delegated conf q)

/-- The value held by the local variable grid at the point where the slow
path of get_map runs: the grid object, or the tile-count pair that the
unpacking assignment of the get_affected_tiles call rebinds grid to on
the fall-through from the fast path. -/
inductive PyGridVal where
  | gridObj (g : Grid)
  | countTuple (t : Nat × Nat)
  deriving DecidableEq, Repr

/-- The slow path of get_map (construction of cache_conf, the fake grid
and source configurations, and the delegation).  Building cache_conf
evaluates grid.name first, so when grid holds the rebound tile-count
tuple the attribute access raises. -/
def slow_path (gridVal : PyGridVal) (q : MapQuery) : Except Err MapResult :=
  match gridVal with
  | .countTuple _ =>
    .error (.pythonError "AttributeError: tuple object has no attribute name")
  | .gridObj grid =>
    let cache_conf : CacheConf :=
      { name := "my_cache"
        sources := ["this_source"]
        grids := [grid.name]
        grid_def := grid
        grid_srs_conf := grid.srs }
    cache_map_layer_get_map cache_conf q

/-- The resolution-range gate of get_map: true when a range is configured
and rejects the query. -/
def res_range_rejects (cfg : Config) (q : MapQuery) : Bool :=
  match cfg.res_range with
  | some contains => !(contains q.bbox q.size q.srs)
  | none => false

/-- The coverage gate of get_map: true when a coverage is configured and
does not intersect the query bounding box. -/
def coverage_rejects (cfg : Config) (q : MapQuery) : Bool :=
  match cfg.coverage with
  | some intersects => !(intersects q.bbox q.srs)
  | none => false

/-- Embedding of OGCAPITilesSource.get_map. -/
def get_map (cfg : Config) (env : Env) (st : SourceState) (query : MapQuery) :
    Except Err MapResult × SourceState × List NetOp :=
  match initDiscovery cfg env st with
  | (.error e, st1, tr) => (.error e, st1, tr)
  | (.ok _, st1, tr0) =>
    let image_mime_type := "image/" ++ query.format
    match get_grid_and_template_url_from_srs cfg env st1 query.srs image_mime_type with
    | (.error e, st2, tr1) => (.error e, st2, tr0 ++ tr1)
    | (.ok (grid, template_url), st2, tr1) =>
      let tr := tr0 ++ tr1
      if grid.tile_size = query.size ∧ grid.srs = query.srs then
        if res_range_rejects cfg query then (.error .blankImage, st2, tr)
        else if coverage_rejects cfg query then (.error .blankImage, st2, tr)
        else
          let r := env.affected grid query.bbox query.size
          let gcount := r.2.1
          let tiles := r.2.2
          if gcount = (1, 1) then
            match tiles with
            | [] => (.error (.pythonError "StopIteration"), st2, tr)
            | (x, y, z) :: _ =>
              let tile_url :=
                ((template_url.replace "\x7btileMatrix\x7d" (toString z)).replace
                    "\x7btileRow\x7d" (toString y)).replace
                  "\x7btileCol\x7d" (toString x)
              match env.open_image tile_url with
              | .ok img => (.ok (.image img), st2, tr ++ [.getImage tile_url])
              | .error (code, m) =>
                match cfg.error_handler with
                | some handler =>
                  match handler code query.bbox with
                  | some resp => (.ok (.image resp), st2, tr ++ [.getImage tile_url])
                  | none => (.error (.sourceError m), st2, tr ++ [.getImage tile_url])
                | none => (.error (.sourceError m), st2, tr ++ [.getImage tile_url])
          else
            match slow_path (.countTuple gcount) query with
            | .ok v => (.ok v, st2, tr)
            | .error e => (.error e, st2, tr)
      else
        match slow_path (.gridObj grid) query with
        | .ok v => (.ok v, st2, tr)
        | .error e => (.error e, st2, tr)

/-- Specification-side restatement of the link finder used by claim C8:
the first link whose rel matches and whose declared type equals the
preferred media type wins; otherwise the first matching link without a
type field; otherwise nothing. -/
def find_href_spec (links : List Link) (rel pref : String) : Option String :=
  match links.find? (fun l => l.rel == rel && l.type? == some pref) with
  | some l => some l.href
  | none =>
    match links.find? (fun l => l.rel == rel && l.type?.isNone) with
    | some l => some l.href
    | none => none

theorem find_href_loop_eq (rel pref : String) (links : List Link) (acc : Option String) :
    find_href_loop rel pref links acc =
      match links.find? (fun l => l.rel == rel && l.type? == some pref) with
      | some l => some l.href
      | none =>
        match acc with
        | some h => some h
        | none => (links.find? (fun l => l.rel == rel && l.type?.isNone)).map Link.href := by
  induction links generalizing acc with
  | nil => cases acc <;> simp [find_href_loop]
  | cons l rest ih =>
    by_cases hrel : l.rel = rel
    · cases htype : l.type? with
      | some t =>
        by_cases ht : t = pref
        · simp [find_href_loop, hrel, htype, ht]
        · have hneg : (l.rel == rel && l.type? == some pref) = false := by
            simp [htype, ht]
          have hneg2 : (l.rel == rel && l.type?.isNone) = false := by
            simp [htype]
          simp [find_href_loop, hrel, htype, ht, hneg, hneg2, ih]
      | none =>
        have hpos : (l.rel == rel && l.type?.isNone) = true := by simp [hrel, htype]
        have hneg : (l.rel == rel && l.type? == some pref) = false := by simp [htype]
        cases acc with
        | none => simp [find_href_loop, hrel, htype, hneg, hpos, ih]
        | some h => simp [find_href_loop, hrel, htype, hneg, hpos, ih]
    · have hneg : (l.rel == rel && l.type? == some pref) = false := by simp [hrel]
      have hneg2 : (l.rel == rel && l.type?.isNone) = false := by simp [hrel]
      simp [find_href_loop, hrel, hneg, hneg2, ih]

/-- C8: the link finder returns the href of the first link whose rel
matches and whose declared type equals the preferred media type when one
exists, even when an untyped matching link appears earlier; otherwise the
href of the first matching link without a type field; otherwise no
result.  A matching link whose declared type differs from the preferred
media type is never selected. -/
theorem c8_find_href_spec (links : List Link) (rel pref : String) :
    find_href_in_links links rel pref = find_href_spec links rel pref := by
  unfold find_href_in_links find_href_spec
  rw [find_href_loop_eq]
  cases links.find? (fun l => l.rel == rel && l.type? == some pref) with
  | some l => rfl
  | none =>
    cases links.find? (fun l => l.rel == rel && l.type?.isNone) with
    | some l => rfl
    | none => rfl

theorem string_append_data (a b : String) : (a ++ b).data = a.data ++ b.data := rfl

theorem string_mk_data (s : String) : String.mk s.data = s := rfl

theorem splitOnceL_append (sep pre rest : List Char) (c : Char) (hc : sep.head? = some c)
    (hpre : c ∉ pre) : splitOnceL sep (pre ++ sep ++ rest) = some (pre, rest) := by
  obtain ⟨sep', rfl⟩ : ∃ sep', sep = c :: sep' := by
    cases sep with
    | nil => simp at hc
    | cons x s =>
      have hx : x = c := by simpa using hc
      exact ⟨s, by rw [hx]⟩
  induction pre with
  | nil =>
    have hcons : ([] : List Char) ++ (c :: sep') ++ rest = c :: (sep' ++ rest) := by simp
    rw [hcons]
    have hpref : (c :: sep').isPrefixOf (c :: (sep' ++ rest)) = true := by
      rw [ List.isPrefixOf_iff_prefix]
      exact List.prefix_append (c :: sep') rest
    have hback : c :: (sep' ++ rest) = (c :: sep') ++ rest := by simp
    simp only [splitOnceL, hpref, if_true]
    rw [hback, List.drop_left]
  | cons a pre' ih =>
    have hca : ¬ c = a := fun h => hpre (h ▸ List.mem_cons_self a pre')
    have hpre' : c ∉ pre' := fun h => hpre (List.mem_cons_of_mem a h)
    have hcons : (a :: pre') ++ (c :: sep') ++ rest = a :: (pre' ++ (c :: sep') ++ rest) := by
      simp
    rw [hcons]
    have hnpref : (c :: sep').isPrefixOf (a :: (pre' ++ (c :: sep') ++ rest)) = false := by
      simp [List.isPrefixOf]
      intro h
      exact absurd h hca
    simp only [splitOnceL, hnpref, Bool.false_eq_true, if_false]
    rw [ih hpre']

theorem splitOnceL_not_mem (c : Char) (l : List Char) (h : c ∉ l) :
    splitOnceL [c] l = none := by
  induction l with
  | nil => rfl
  | cons a l' ih =>
    have hca : c ≠ a := fun hq => h (hq ▸ List.mem_cons_self a l')
    have h' : c ∉ l' := fun hq => h (List.mem_cons_of_mem a hq)
    have hnpref : [c].isPrefixOf (a :: l') = false := by
      simp [List.isPrefixOf]
      intro hq
      exact absurd hq hca
    simp only [splitOnceL, hnpref, Bool.false_eq_true, if_false]
    rw [ih h']

theorem py_startswith_slash (s : String) (h : py_startswith s "/" = true) :
    ∃ t, s.data = '/' :: t := by
  unfold py_startswith at h
  cases hd : s.data with
  | nil => rw [hd] at h; simp [List.isPrefixOf] at h
  | cons a t =>
    rw [hd] at h
    have : ('/' == a) = true := by
      simpa [List.isPrefixOf] using h
    exact ⟨t, by rw [eq_of_beq this]⟩

/-- C9: for a landing page of the shape scheme ++ sep ++ host ++ path
(with the scheme free of colons, the host free of slashes, and the path
empty or root-relative, so that host is exactly the authority part before
the first slash after the scheme), a root-relative href yields scheme ++
sep ++ host ++ href, discarding the landing page path; and any href that
does not start with a slash is returned unchanged for every landing
page. -/
theorem c9_build_url_join (scheme host path href lp2 href2 : String)
    (hs : ':' ∉ scheme.data) (hh : '/' ∉ host.data)
    (hp : path = "" ∨ py_startswith path "/" = true)
    (h2 : py_startswith href2 "/" = false) :
    build_url (scheme ++ "://" ++ host ++ path) href =
      (if py_startswith href "/" then some (scheme ++ "://" ++ host ++ href)
       else some href)
    ∧ build_url lp2 href2 = some href2 := by
  constructor
  · by_cases hst : py_startswith href "/"
    · rw [if_pos hst]
      unfold build_url
      rw [if_pos hst]
      have hdata : (scheme ++ "://" ++ host ++ path).data =
          scheme.data ++ [':', '/', '/'] ++ (host.data ++ path.data) := by
        simp only [string_append_data, List.append_assoc]
      unfold splitOnce
      rw [show ("://" : String).data = [':', '/', '/'] from rfl, hdata,
        splitOnceL_append [':', '/', '/'] scheme.data (host.data ++ path.data) ':' rfl hs]
      simp only []
      rcases hp with hp | hp
      · subst hp
        simp only [show ("" : String).data = ([] : List Char) from rfl, List.append_nil,
          show ("/" : String).data = ['/'] from rfl]
        rw [splitOnceL_not_mem '/' host.data hh]
      · obtain ⟨t, ht⟩ := py_startswith_slash path hp
        rw [ht, show host.data ++ '/' :: t = host.data ++ ['/'] ++ t by simp]
        rw [splitOnceL_append ['/'] host.data t '/' rfl hh]
    · have hst' : py_startswith href "/" = false := by
        cases hq : py_startswith href "/" with
        | true => exact absurd hq hst
        | false => rfl
      rw [if_neg hst]
      unfold build_url
      rw [hst']
      simp
  · unfold build_url
    rw [h2]
    simp

/-- C9 witness: the spec example landing page and href, plus an href that
is not root-relative. -/
theorem c9_build_url_join_witness :
    (':' ∉ ("https" : String).data) ∧ ('/' ∉ ("example.org" : String).data) ∧
    (("/ogc/api" : String) = "" ∨ py_startswith "/ogc/api" "/" = true) ∧
    py_startswith "rel.png" "/" = false ∧
    (build_url ("https" ++ "://" ++ "example.org" ++ "/ogc/api") "/collections/foo" =
      (if py_startswith "/collections/foo" "/" then
        some ("https" ++ "://" ++ "example.org" ++ "/collections/foo")
       else some "/collections/foo")
     ∧ build_url "http://x" "rel.png" = some "rel.png") :=
  ⟨by decide, by decide, Or.inr (by decide), by decide,
    c9_build_url_join "https" "example.org" "/ogc/api" "/collections/foo" "http://x" "rel.png"
      (by decide) (by decide) (Or.inr (by decide)) (by decide)⟩

theorem lookupA_append_self {α : Type} (m : List (String × α)) (k : String) (v : α)
    (h : lookupA m k = none) : lookupA (m ++ [(k, v)]) k = some v := by
  induction m with
  | nil => simp [lookupA]
  | cons p rest ih =>
    obtain ⟨k', w⟩ := p
    by_cases hk : k' = k
    · simp [lookupA, hk] at h
    · simp only [lookupA, List.cons_append] at h ⊢
      rw [if_neg hk] at h ⊢
      exact ih h

/-- C5: a successful resolution stores the (grid, template) pair in the
cache under the key normalized CRS ++ slash ++ media type, and any later
resolution of the same pair returns the identical stored value, leaves
the state unchanged and issues no network operation. -/
theorem c5_resolution_cached (cfg : Config) (env : Env) (st : SourceState)
    (query_srs image_mime_type : String) (v : Grid × String) (st' : SourceState)
    (tr : List NetOp)
    (h : get_grid_and_template_url_from_srs cfg env st query_srs image_mime_type =
      (.ok v, st', tr)) :
    lookupA st'.map_srs_to_grid_and_template_url
        (normalize_srs_code query_srs ++ "/" ++ image_mime_type) = some v
    ∧ get_grid_and_template_url_from_srs cfg env st' query_srs image_mime_type =
        (.ok v, st', []) := by
  simp only [get_grid_and_template_url_from_srs] at h ⊢
  cases hcase : lookupA st.map_srs_to_grid_and_template_url
      (normalize_srs_code query_srs ++ "/" ++ image_mime_type) with
  | some w =>
    rw [hcase] at h
    simp only [Prod.mk.injEq, Except.ok.injEq] at h
    obtain ⟨hv, hst, htr⟩ := h
    subst hv
    subst hst
    rw [hcase]
    exact ⟨rfl, rfl⟩
  | none =>
    rw [hcase] at h
    cases hscan : run_candidate_scan cfg env st (normalize_srs_code query_srs)
        image_mime_type with
    | mk o tr0 =>
      rw [hscan] at h
      cases o with
      | none => simp at h
      | some w =>
        simp only [Prod.mk.injEq, Except.ok.injEq] at h
        obtain ⟨hv, hst, htr⟩ := h
        subst hv
        have hlook : lookupA st'.map_srs_to_grid_and_template_url
            (normalize_srs_code query_srs ++ "/" ++ image_mime_type) = some w := by
          rw [← hst]
          exact lookupA_append_self _ _ _ hcase
        rw [hlook]
        exact ⟨rfl, rfl⟩

/-- C5 witness state: discovery already done with one bucket for the
EPSG:3857 code and an empty resolution cache. -/
def stW : SourceState :=
  { init_done := true
    map_crs_to_tilesets_list :=
      [("EPSG:3857",
        [{ dataType := "map", crs := "http://www.opengis.net/def/crs/EPSG/0/3857",
           links :=
             [{ rel := tiling_scheme_rel, type? := some "application/json", href := "/tms" },
              { rel := "self", type? := some "application/json", href := "/ts0" }] }])]
    map_srs_to_grid_and_template_url := [] }

/-- C10: a failed resolution leaves the state, and in particular the
resolution cache, unchanged, so a later call with the same key runs the
same full candidate scan again instead of returning a cached failure. -/
theorem c10_failure_atomic (cfg : Config) (env : Env) (st : SourceState)
    (query_srs image_mime_type : String) (e : Err) (st' : SourceState) (tr : List NetOp)
    (h : get_grid_and_template_url_from_srs cfg env st query_srs image_mime_type =
      (.error e, st', tr)) :
    st' = st
    ∧ get_grid_and_template_url_from_srs cfg env st' query_srs image_mime_type =
        get_grid_and_template_url_from_srs cfg env st query_srs image_mime_type := by
  have hst : st' = st := by
    simp only [get_grid_and_template_url_from_srs] at h
    cases hcase : lookupA st.map_srs_to_grid_and_template_url
        (normalize_srs_code query_srs ++ "/" ++ image_mime_type) with
    | some w => rw [hcase] at h; simp at h
    | none =>
      rw [hcase] at h
      cases hscan : run_candidate_scan cfg env st (normalize_srs_code query_srs)
          image_mime_type with
      | mk o tr0 =>
        rw [hscan] at h
        cases o with
        | none =>
          simp only [Prod.mk.injEq] at h
          exact h.2.1.symm
        | some w => simp at h
  exact ⟨hst, by rw [hst]⟩

/-- Demo tileset descriptor used by the concrete witnesses. -/
def ts0 : Tileset :=
  { dataType := "map", crs := "http://www.opengis.net/def/crs/EPSG/0/3857",
    links :=
      [{ rel := tiling_scheme_rel, type? := some "application/json", href := "/tms" },
       { rel := "self", type? := some "application/json", href := "/ts0" }] }

/-- Demo grid produced by the demo tile-grid builder. -/
def grid0 : Grid :=
  { name := "WebMercatorQuad", srs := "EPSG:3857", tile_size := (256, 256) }

/-- Demo HTTP responses: a collection document pointing at a tilesets-map
document with one map tileset, its tiling scheme and its full tileset
document with a png item template. -/
def fetch0 : String → FetchResult := fun url =>
  if url = "https://example.org/api" then
    .doc { links? :=
             some [{ rel := tilesets_map_rel, type? := some "application/json",
                     href := "/tilesets" }] }
  else if url = "https://example.org/tilesets" then
    .doc { tilesets? := some [ts0] }
  else if url = "https://example.org/tms" then
    .doc { tms := 1 }
  else if url = "https://example.org/ts0" then
    .doc { links? :=
             some [{ rel := "item", type? := some "image/png",
                     href := "/tiles/\x7btileMatrix\x7d/\x7btileRow\x7d/\x7btileCol\x7d.png" }] }
  else .httpError "404"

/-- Demo environment. -/
def env0 : Env :=
  { fetch := fetch0
    open_image := fun _ => .ok 7
    tile_grid := fun d => if d.tms = 1 then .ok grid0 else .error "not a tile matrix set"
    affected := fun _ _ _ => (0, (1, 1), [(3, 2, 5)])
    authCode := fun c =>
      if c = "http://www.opengis.net/def/crs/EPSG/0/3857" then "EPSG:3857" else c }

/-- Demo configuration with a coverage that intersects nothing. -/
def cfg0 : Config :=
  { landingpage_url := "https://example.org/api"
    collection := none
    coverage := some (fun _ _ => false)
    res_range := none
    error_handler := none }

/-- A fresh source state. -/
def st0 : SourceState :=
  { init_done := false
    map_crs_to_tilesets_list := []
    map_srs_to_grid_and_template_url := [] }

/-- The template URL resolved by the demo environment. -/
def tmpl0 : String :=
  "https://example.org/tiles/\x7btileMatrix\x7d/\x7btileRow\x7d/\x7btileCol\x7d.png"

/-- State after the demo resolution stored its result. -/
def stB : SourceState :=
  { stW with map_srs_to_grid_and_template_url := [("EPSG:3857/image/png", (grid0, tmpl0))] }

/-- C5 witness: resolving EPSG:3857 and image/png against the demo
environment stores (grid0, tmpl0), and the second call returns the
cached pair with no network operation. -/
theorem c5_resolution_cached_witness :
    lookupA stB.map_srs_to_grid_and_template_url
        (normalize_srs_code "EPSG:3857" ++ "/" ++ "image/png") = some (grid0, tmpl0)
    ∧ get_grid_and_template_url_from_srs cfg0 env0 stB "EPSG:3857" "image/png" =
        (.ok (grid0, tmpl0), stB, []) :=
  c5_resolution_cached cfg0 env0 stW "EPSG:3857" "image/png" (grid0, tmpl0) stB
    [.get "https://example.org/tms", .get "https://example.org/ts0"] rfl

/-- State with discovery done but no bucket at all. -/
def stE : SourceState :=
  { init_done := true
    map_crs_to_tilesets_list := []
    map_srs_to_grid_and_template_url := [] }

/-- C10 witness: a failing resolution for an unknown CRS leaves the state
unchanged and a repeated call runs the same scan again. -/
theorem c10_failure_atomic_witness :
    stE = stE
    ∧ get_grid_and_template_url_from_srs cfg0 env0 stE "EPSG:9999" "image/png" =
        get_grid_and_template_url_from_srs cfg0 env0 stE "EPSG:9999" "image/png" :=
  c10_failure_atomic cfg0 env0 stE "EPSG:9999" "image/png"
    (.sourceError "Cannot find a valid tile matrix set for EPSG:9999") stE [] rfl

/-- C2 failing input: a tileset descriptor whose links hold a typed
tiling-scheme link but no self link. -/
def ts_no_self : Tileset :=
  { dataType := "map", crs := "http://www.opengis.net/def/crs/EPSG/0/3857",
    links := [{ rel := tiling_scheme_rel, type? := some "application/json",
                href := "https://example.org/tms" }] }

/-- C2: on a tileset descriptor with no self link, single-tileset
resolution does not fail with the descriptive error about the missing
self link: the guard at that point re-tests tiling_scheme_href instead of
tileset_href, so execution reaches _build_url with None and raises an
AttributeError. -/
theorem c2_missing_self_link_attribute_error :
    find_href_in_links ts_no_self.links "self" "application/json" = none
    ∧ (get_grid_and_template_url_from_tileset cfg0 env0 ts_no_self "image/png").1 =
        .error (.pythonError "AttributeError: NoneType object has no attribute startswith") :=
  ⟨rfl, rfl⟩

/-- Configuration without coverage or resolution range. -/
def cfg1 : Config := { cfg0 with coverage := none }

/-- Environment whose affected-tile computation yields a 2 by 1 tile
area. -/
def env1 : Env := { env0 with affected := fun _ _ _ => (0, (2, 1), [(0, 0, 5), (1, 0, 5)]) }

/-- A query whose pixel size and CRS match the demo grid exactly. -/
def q256 : MapQuery := { bbox := 0, size := (256, 256), srs := "EPSG:3857", format := "png" }

/-- C1: when the fast-path gate matches but the affected-tile computation
yields more than one tile, get_map does not delegate: the unpacking
assignment of the get_affected_tiles call has rebound the local variable
grid to the tile-count tuple, so building cache_conf evaluates name on a
tuple and raises an AttributeError. -/
theorem c1_multi_tile_fall_through_error :
    (get_map cfg1 env1 st0 q256).1 =
      .error (.pythonError "AttributeError: tuple object has no attribute name") := rfl

/-- A query whose pixel size differs from the demo grid tile size. -/
def q512 : MapQuery := { bbox := 0, size := (512, 512), srs := "EPSG:3857", format := "png" }

/-- The synthetic cache configuration that the demo slow path builds. -/
def conf0 : CacheConf :=
  { name := "my_cache", sources := ["this_source"], grids := ["WebMercatorQuad"],
    grid_def := grid0, grid_srs_conf := "EPSG:3857" }

/-- C3 counterexample: the configured coverage rejects the query bounding
box, yet a query whose size differs from the grid tile size is delegated
to the cache pathway instead of yielding BlankImage: the coverage and
resolution-range gates run only on the matching fast path. -/
theorem c3_mismatch_path_skips_gates_cex :
    coverage_rejects cfg0 q512 = true
    ∧ (get_map cfg0 env0 st0 q512).1 = .ok (.delegated conf0 q512) :=
  ⟨rfl, rfl⟩

theorem resolve_trace_gets (cfg : Config) (env : Env) (t : Tileset) (mime : String) :
    ∀ op ∈ (get_grid_and_template_url_from_tileset cfg env t mime).2,
      ∀ u, op ≠ NetOp.getImage u := by
  intro op hop u
  simp only [get_grid_and_template_url_from_tileset] at hop
  repeat' split at hop
  all_goals try simp_all
  all_goals rcases hop with h | h <;> simp_all

theorem scan_trace_gets (cfg : Config) (env : Env) (mime : String) (l : List Tileset) :
    ∀ op ∈ (scan_tilesets cfg env mime l).2, ∀ u, op ≠ NetOp.getImage u := by
  induction l with
  | nil => simp [scan_tilesets]
  | cons t rest ih =>
    intro op hop u
    simp only [scan_tilesets] at hop
    cases hres : get_grid_and_template_url_from_tileset cfg env t mime with
    | mk r tr =>
      rw [hres] at hop
      cases r with
      | ok v =>
        exact resolve_trace_gets cfg env t mime op (by rw [hres]; exact hop) u
      | error e =>
        simp only [] at hop
        rcases List.mem_append.1 hop with h | h
        · exact resolve_trace_gets cfg env t mime op (by rw [hres]; exact h) u
        · exact ih op h u

theorem scan_all_trace_gets (cfg : Config) (env : Env) (mime : String)
    (m : List (String × List Tileset)) :
    ∀ op ∈ (scan_all_tilesets cfg env mime m).2, ∀ u, op ≠ NetOp.getImage u := by
  induction m with
  | nil => simp [scan_all_tilesets]
  | cons p rest ih =>
    obtain ⟨k, bucket⟩ := p
    intro op hop u
    simp only [scan_all_tilesets] at hop
    cases hres : scan_tilesets cfg env mime bucket with
    | mk r tr =>
      rw [hres] at hop
      cases r with
      | some v =>
        exact scan_trace_gets cfg env mime bucket op (by rw [hres]; exact hop) u
      | none =>
        simp only [] at hop
        rcases List.mem_append.1 hop with h | h
        · exact scan_trace_gets cfg env mime bucket op (by rw [hres]; exact h) u
        · exact ih op h u

theorem srs_trace_gets (cfg : Config) (env : Env) (st : SourceState)
    (query_srs image_mime_type : String) :
    ∀ op ∈ (get_grid_and_template_url_from_srs cfg env st query_srs image_mime_type).2.2,
      ∀ u, op ≠ NetOp.getImage u := by
  intro op hop u
  simp only [get_grid_and_template_url_from_srs] at hop
  cases hcase : lookupA st.map_srs_to_grid_and_template_url
      (normalize_srs_code query_srs ++ "/" ++ image_mime_type) with
  | some w => rw [hcase] at hop; simp at hop
  | none =>
    rw [hcase] at hop
    cases hscan : run_candidate_scan cfg env st (normalize_srs_code query_srs)
        image_mime_type with
    | mk o tr0 =>
      rw [hscan] at hop
      have hin : op ∈ (run_candidate_scan cfg env st (normalize_srs_code query_srs)
          image_mime_type).2 := by
        rw [hscan]
        cases o with
        | none => exact hop
        | some w => exact hop
      revert hin
      unfold run_candidate_scan
      cases lookupA st.map_crs_to_tilesets_list (normalize_srs_code query_srs) with
      | some bucket => exact fun hin => scan_trace_gets cfg env image_mime_type bucket op hin u
      | none =>
        exact fun hin =>
          scan_all_trace_gets cfg env image_mime_type st.map_crs_to_tilesets_list op hin u

theorem init_trace_gets (cfg : Config) (env : Env) (st : SourceState) :
    ∀ op ∈ (initDiscovery cfg env st).2.2, ∀ u, op ≠ NetOp.getImage u := by
  intro op hop u
  simp only [initDiscovery] at hop
  repeat' split at hop
  all_goals try simp_all
  all_goals rcases hop with h | h <;> simp_all

/-- C3 (amended): the coverage and resolution-range gates run before
dispatch on the fast path only.  When the resolved grid tile size and CRS
match the query exactly and either gate rejects the query, get_map
signals BlankImage, delegates nothing, and its trace contains no tile
image fetch. -/
theorem c3_gates_on_matching_path (cfg : Config) (env : Env) (st : SourceState)
    (query : MapQuery) (st1 st2 : SourceState) (tr0 tr1 : List NetOp)
    (grid : Grid) (template_url : String)
    (h0 : initDiscovery cfg env st = (.ok (), st1, tr0))
    (h1 : get_grid_and_template_url_from_srs cfg env st1 query.srs
        ("image/" ++ query.format) = (.ok (grid, template_url), st2, tr1))
    (h2 : grid.tile_size = query.size) (h3 : grid.srs = query.srs)
    (h4 : res_range_rejects cfg query = true ∨ coverage_rejects cfg query = true) :
    get_map cfg env st query = (.error .blankImage, st2, tr0 ++ tr1)
    ∧ ∀ u, NetOp.getImage u ∉ tr0 ++ tr1 := by
  constructor
  · simp only [get_map]
    rw [h0]
    simp only []
    rw [h1]
    simp only []
    rw [if_pos ⟨h2, h3⟩]
    cases hr : res_range_rejects cfg query with
    | true => simp [hr]
    | false =>
      rcases h4 with h4 | h4
      · rw [h4] at hr
        exact absurd hr (by simp)
      · simp [hr, h4]
  · intro u hu
    rcases List.mem_append.1 hu with h | h
    · exact init_trace_gets cfg env st (NetOp.getImage u) (by rw [h0]; exact h) u rfl
    · exact srs_trace_gets cfg env st1 query.srs ("image/" ++ query.format)
        (NetOp.getImage u) (by rw [h1]; exact h) u rfl

/-- C3 witness: a query matching the demo grid exactly, rejected by the
configured coverage, yields BlankImage with only the four JSON fetches in
the trace. -/
theorem c3_gates_on_matching_path_witness :
    get_map cfg0 env0 st0 q256 = (.error .blankImage, stB,
      [.get "https://example.org/api", .get "https://example.org/tilesets"] ++
        [.get "https://example.org/tms", .get "https://example.org/ts0"])
    ∧ ∀ u, NetOp.getImage u ∉
        ([.get "https://example.org/api", .get "https://example.org/tilesets"] ++
          [.get "https://example.org/tms", .get "https://example.org/ts0"] : List NetOp) :=
  c3_gates_on_matching_path cfg0 env0 st0 q256 stW stB
    [.get "https://example.org/api", .get "https://example.org/tilesets"]
    [.get "https://example.org/tms", .get "https://example.org/ts0"]
    grid0 tmpl0 rfl rfl rfl rfl (Or.inr rfl)

/-- The candidate list that a (CRS, media type) resolution selects: the
exact bucket of the normalized code when present, otherwise every bucket
flattened in map insertion order. -/
def candidates_for (st : SourceState) (srs_code : String) : List Tileset :=
  match lookupA st.map_crs_to_tilesets_list srs_code with
  | some bucket => bucket
  | none => (st.map_crs_to_tilesets_list.map Prod.snd).flatten

/-- Specification-side scan: the value of the first candidate whose
single-tileset resolution succeeds. -/
def first_resolved (cfg : Config) (env : Env) (mime : String) (l : List Tileset) :
    Option (Grid × String) :=
  l.findSome? (fun t => (get_grid_and_template_url_from_tileset cfg env t mime).1.toOption)

theorem scan_tilesets_first (cfg : Config) (env : Env) (mime : String) (l : List Tileset) :
    (scan_tilesets cfg env mime l).1 = first_resolved cfg env mime l := by
  induction l with
  | nil => rfl
  | cons t rest ih =>
    simp only [scan_tilesets, first_resolved, List.findSome?_cons]
    cases hres : get_grid_and_template_url_from_tileset cfg env t mime with
    | mk r tr =>
      cases r with
      | ok v => simp [Except.toOption]
      | error e => simpa [Except.toOption, first_resolved] using ih

theorem scan_all_tilesets_first (cfg : Config) (env : Env) (mime : String)
    (m : List (String × List Tileset)) :
    (scan_all_tilesets cfg env mime m).1 =
      first_resolved cfg env mime ((m.map Prod.snd).flatten) := by
  induction m with
  | nil => rfl
  | cons p rest ih =>
    obtain ⟨k, bucket⟩ := p
    simp only [scan_all_tilesets, List.map_cons, List.flatten_cons]
    have happ : first_resolved cfg env mime (bucket ++ (rest.map Prod.snd).flatten) =
        (first_resolved cfg env mime bucket).or
          (first_resolved cfg env mime ((rest.map Prod.snd).flatten)) := by
      simp [first_resolved, List.findSome?_append]
    rw [happ]
    cases hs : scan_tilesets cfg env mime bucket with
    | mk o tr =>
      have hfirst : first_resolved cfg env mime bucket = o := by
        rw [← scan_tilesets_first cfg env mime bucket, hs]
      cases o with
      | some v => simp [hfirst]
      | none =>
        simp only [hfirst, Option.none_or]
        exact ih

/-- C4: on a cache miss, the resolver attempts the selected candidates in
order, swallowing per-candidate exceptions, and returns the value of the
first candidate that succeeds; when every candidate fails, or the
selected list is empty, it fails with an error whose message names the
requested CRS. -/
theorem c4_candidate_scan (cfg : Config) (env : Env) (st : SourceState)
    (query_srs image_mime_type : String)
    (hmiss : lookupA st.map_srs_to_grid_and_template_url
      (normalize_srs_code query_srs ++ "/" ++ image_mime_type) = none) :
    (get_grid_and_template_url_from_srs cfg env st query_srs image_mime_type).1 =
      match first_resolved cfg env image_mime_type
          (candidates_for st (normalize_srs_code query_srs)) with
      | some v => .ok v
      | none =>
        .error (.sourceError ("Cannot find a valid tile matrix set for " ++ query_srs)) := by
  simp only [get_grid_and_template_url_from_srs]
  rw [hmiss]
  have hscan : (run_candidate_scan cfg env st (normalize_srs_code query_srs)
      image_mime_type).1 =
      first_resolved cfg env image_mime_type
        (candidates_for st (normalize_srs_code query_srs)) := by
    unfold run_candidate_scan candidates_for
    cases lookupA st.map_crs_to_tilesets_list (normalize_srs_code query_srs) with
    | some bucket => exact scan_tilesets_first cfg env image_mime_type bucket
    | none => exact scan_all_tilesets_first cfg env image_mime_type st.map_crs_to_tilesets_list
  cases hrun : run_candidate_scan cfg env st (normalize_srs_code query_srs)
      image_mime_type with
  | mk o tr =>
    rw [hrun] at hscan
    cases o with
    | none => rw [← hscan]
    | some v => rw [← hscan]

/-- C4 witness: with the demo bucket for EPSG:3857, the scan returns the
first resolved pair; the cache is empty so the call is a miss. -/
theorem c4_candidate_scan_witness :
    lookupA stW.map_srs_to_grid_and_template_url
        (normalize_srs_code "EPSG:3857" ++ "/" ++ "image/png") = none
    ∧ (get_grid_and_template_url_from_srs cfg0 env0 stW "EPSG:3857" "image/png").1 =
        (match first_resolved cfg0 env0 "image/png"
            (candidates_for stW (normalize_srs_code "EPSG:3857")) with
         | some v => .ok v
         | none =>
           .error (.sourceError ("Cannot find a valid tile matrix set for " ++ "EPSG:3857"))) :=
  ⟨rfl, c4_candidate_scan cfg0 env0 stW "EPSG:3857" "image/png" rfl⟩

/-- Repeated invocation of _initialize on the same instance, accumulating
the network trace. -/
def initDiscoverySeq (cfg : Config) (env : Env) : Nat → SourceState → SourceState × List NetOp
  | 0, st => (st, [])
  | n + 1, st =>
    let r := initDiscovery cfg env st
    let rest := initDiscoverySeq cfg env n r.2.1
    (rest.1, r.2.2 ++ rest.2)

theorem initDiscoverySeq_succ (cfg : Config) (env : Env) (n : Nat) (st : SourceState) :
    initDiscoverySeq cfg env (n + 1) st =
      ((initDiscoverySeq cfg env n (initDiscovery cfg env st).2.1).1,
        (initDiscovery cfg env st).2.2 ++
          (initDiscoverySeq cfg env n (initDiscovery cfg env st).2.1).2) := rfl

theorem initDiscovery_sets_flag (cfg : Config) (env : Env) (st : SourceState) :
    ((initDiscovery cfg env st).2.1).init_done = true := by
  simp only [initDiscovery]
  repeat' split
  all_goals simp_all

theorem initDiscovery_done (cfg : Config) (env : Env) (st : SourceState)
    (h : st.init_done = true) : initDiscovery cfg env st = (.ok (), st, []) := by
  simp [initDiscovery, h]

/-- C6: over any sequence of n calls to _initialize, the whole network
trace is the first call's trace, which holds at most two JSON GET
operations, the first of them on the collection resource; once the first
call has returned or raised, the flag is set and every later call returns
immediately with no network operation and an unchanged state. -/
theorem c6_discovery_at_most_once (cfg : Config) (env : Env) (st : SourceState) (n : Nat)
    (hn : 1 ≤ n) :
    initDiscoverySeq cfg env n st =
      ((initDiscovery cfg env st).2.1, (initDiscovery cfg env st).2.2)
    ∧ initDiscovery cfg env (initDiscovery cfg env st).2.1 =
        (.ok (), (initDiscovery cfg env st).2.1, [])
    ∧ ((initDiscovery cfg env st).2.2 = []
       ∨ (initDiscovery cfg env st).2.2 = [.get (collection_url cfg)]
       ∨ ∃ u, (initDiscovery cfg env st).2.2 = [.get (collection_url cfg), .get u]) := by
  refine ⟨?_, initDiscovery_done cfg env _ (initDiscovery_sets_flag cfg env st), ?_⟩
  · obtain ⟨m, rfl⟩ : ∃ m, n = m + 1 := ⟨n - 1, by omega⟩
    clear hn
    induction m generalizing st with
    | zero => simp [initDiscoverySeq]
    | succ k ih =>
      rw [initDiscoverySeq_succ]
      rw [ih ((initDiscovery cfg env st).2.1)]
      rw [initDiscovery_done cfg env _ (initDiscovery_sets_flag cfg env st)]
      simp
  · simp only [initDiscovery]
    repeat' split
    all_goals simp

/-- C6 witness: one call against the demo environment. -/
theorem c6_discovery_at_most_once_witness :
    1 ≤ 1 ∧
      (initDiscoverySeq cfg0 env0 1 st0 =
          ((initDiscovery cfg0 env0 st0).2.1, (initDiscovery cfg0 env0 st0).2.2)
        ∧ initDiscovery cfg0 env0 (initDiscovery cfg0 env0 st0).2.1 =
            (.ok (), (initDiscovery cfg0 env0 st0).2.1, [])
        ∧ ((initDiscovery cfg0 env0 st0).2.2 = []
           ∨ (initDiscovery cfg0 env0 st0).2.2 = [.get (collection_url cfg0)]
           ∨ ∃ u, (initDiscovery cfg0 env0 st0).2.2 =
               [.get (collection_url cfg0), .get u])) :=
  ⟨Nat.le_refl 1, c6_discovery_at_most_once cfg0 env0 st0 1 (Nat.le_refl 1)⟩

/-- The normalized bucket key of a tileset entry. -/
def tileset_key (env : Env) (t : Tileset) : String :=
  normalize_srs_code (env.authCode t.crs)

/-- The invariant on the per-CRS map: every stored descriptor has
dataType map and sits in the bucket of its normalized CRS code. -/
def crs_map_inv (env : Env) (m : List (String × List Tileset)) : Prop :=
  ∀ p ∈ m, ∀ t ∈ p.2, t.dataType = "map" ∧ tileset_key env t = p.1

theorem lookupA_append_to_bucket (m : List (String × List Tileset)) (k k' : String)
    (t : Tileset) :
    lookupA (append_to_bucket m k t) k' =
      if k' = k then some ((lookupA m k).getD [] ++ [t]) else lookupA m k' := by
  induction m with
  | nil =>
    by_cases h : k' = k
    · subst h
      simp [append_to_bucket, lookupA]
    · have h' : ¬ k = k' := fun hq => h hq.symm
      simp [append_to_bucket, lookupA, h, h']
  | cons p rest ih =>
    obtain ⟨k2, b⟩ := p
    by_cases h2 : k2 = k
    · subst h2
      by_cases h : k' = k2
      · subst h
        simp [append_to_bucket, lookupA]
      · have h' : ¬ k2 = k' := fun hq => h hq.symm
        simp [append_to_bucket, lookupA, h, h']
    · by_cases h : k2 = k'
      · subst h
        have hne : ¬ k2 = k := h2
        have hne2 : ¬ k = k2 := fun hq => h2 hq.symm
        simp [append_to_bucket, lookupA, hne, hne2]
      · simp [append_to_bucket, lookupA, h2, h, ih]

theorem add_tilesets_cons_map (authCode : String → String)
    (m : List (String × List Tileset)) (t : Tileset) (rest : List Tileset)
    (hd : t.dataType = "map") :
    add_tilesets authCode m (t :: rest) =
      add_tilesets authCode
        (append_to_bucket m (normalize_srs_code (authCode t.crs)) t) rest := by
  simp [add_tilesets, hd]

theorem add_tilesets_cons_skip (authCode : String → String)
    (m : List (String × List Tileset)) (t : Tileset) (rest : List Tileset)
    (hd : ¬ t.dataType = "map") :
    add_tilesets authCode m (t :: rest) = add_tilesets authCode m rest := by
  simp [add_tilesets, hd]

/-- How the discovery grouping loop extends an existing bucket map, seen
through a lookup. -/
def combineB (o : Option (List Tileset)) (l : List Tileset) : Option (List Tileset) :=
  match o with
  | some b => some (b ++ l)
  | none => if l.isEmpty then none else some l

theorem lookupA_add_tilesets (authCode : String → String) (ts : List Tileset)
    (m : List (String × List Tileset)) (k : String) :
    lookupA (add_tilesets authCode m ts) k =
      combineB (lookupA m k)
        (ts.filter (fun t => t.dataType == "map" &&
          (normalize_srs_code (authCode t.crs) == k))) := by
  induction ts generalizing m with
  | nil => cases h : lookupA m k <;> simp [add_tilesets, combineB, h]
  | cons t rest ih =>
    by_cases hd : t.dataType = "map"
    · by_cases hk : normalize_srs_code (authCode t.crs) = k
      · have hpred : (t.dataType == "map" &&
            (normalize_srs_code (authCode t.crs) == k)) = true := by
          simp [hd, hk]
        rw [add_tilesets_cons_map authCode m t rest hd, ih, List.filter_cons, hpred]
        rw [lookupA_append_to_bucket m (normalize_srs_code (authCode t.crs)) k t]
        rw [if_pos hk.symm]
        cases ho : lookupA m k with
        | some b => simp [combineB, ho, hk]
        | none => simp [combineB, ho, hk]
      · have hpred : (t.dataType == "map" &&
            (normalize_srs_code (authCode t.crs) == k)) = false := by
          simp [hd, hk]
        rw [add_tilesets_cons_map authCode m t rest hd, ih, List.filter_cons, hpred]
        rw [lookupA_append_to_bucket m (normalize_srs_code (authCode t.crs)) k t]
        rw [if_neg (fun hq : k = normalize_srs_code (authCode t.crs) => hk hq.symm)]
        simp
    · have hpred : (t.dataType == "map" &&
          (normalize_srs_code (authCode t.crs) == k)) = false := by
        simp [hd]
      rw [add_tilesets_cons_skip authCode m t rest hd, ih, List.filter_cons, hpred]
      simp

theorem crs_map_inv_append_to_bucket (env : Env) (m : List (String × List Tileset))
    (k : String) (t : Tileset) (hm : crs_map_inv env m) (ht : t.dataType = "map")
    (hk : tileset_key env t = k) : crs_map_inv env (append_to_bucket m k t) := by
  induction m with
  | nil =>
    intro p hp t' ht'
    simp [append_to_bucket] at hp
    subst hp
    simp at ht'
    subst ht'
    exact ⟨ht, hk⟩
  | cons q rest ih =>
    obtain ⟨k2, b⟩ := q
    have hm_head : ∀ t' ∈ b, t'.dataType = "map" ∧ tileset_key env t' = k2 :=
      fun t' ht' => hm (k2, b) (List.mem_cons_self _ _) t' ht'
    have hm_rest : crs_map_inv env rest :=
      fun p hp t' ht' => hm p (List.mem_cons_of_mem _ hp) t' ht'
    by_cases h2 : k2 = k
    · subst h2
      intro p hp t' ht'
      simp only [append_to_bucket, if_pos rfl] at hp
      rcases List.mem_cons.1 hp with hp | hp
      · subst hp
        rcases List.mem_append.1 ht' with hb | hb
        · exact hm_head t' hb
        · simp at hb
          subst hb
          exact ⟨ht, hk⟩
      · exact hm_rest p hp t' ht'
    · intro p hp t' ht'
      simp only [append_to_bucket, if_neg h2] at hp
      rcases List.mem_cons.1 hp with hp | hp
      · subst hp
        exact hm_head t' ht'
      · exact ih hm_rest p hp t' ht'

theorem crs_map_inv_add_tilesets (env : Env) (ts : List Tileset)
    (m : List (String × List Tileset)) (hm : crs_map_inv env m) :
    crs_map_inv env (add_tilesets env.authCode m ts) := by
  induction ts generalizing m with
  | nil => exact hm
  | cons t rest ih =>
    by_cases hd : t.dataType = "map"
    · rw [add_tilesets_cons_map env.authCode m t rest hd]
      exact ih _ (crs_map_inv_append_to_bucket env m _ t hm hd rfl)
    · rw [add_tilesets_cons_skip env.authCode m t rest hd]
      exact ih _ hm

theorem srs_map_unchanged (cfg : Config) (env : Env) (st : SourceState)
    (query_srs image_mime_type : String) :
    ((get_grid_and_template_url_from_srs cfg env st query_srs
        image_mime_type).2.1).map_crs_to_tilesets_list = st.map_crs_to_tilesets_list := by
  simp only [get_grid_and_template_url_from_srs]
  repeat' split
  all_goals rfl

theorem crs_map_inv_initDiscovery (cfg : Config) (env : Env) (st : SourceState)
    (hm : crs_map_inv env st.map_crs_to_tilesets_list) :
    crs_map_inv env ((initDiscovery cfg env st).2.1).map_crs_to_tilesets_list := by
  simp only [initDiscovery]
  repeat' split
  all_goals first
    | exact hm
    | exact crs_map_inv_add_tilesets env _ _ hm

theorem get_map_state_source (cfg : Config) (env : Env) (st : SourceState) (q : MapQuery) :
    (get_map cfg env st q).2.1 = (initDiscovery cfg env st).2.1 ∨
    (get_map cfg env st q).2.1 =
      (get_grid_and_template_url_from_srs cfg env (initDiscovery cfg env st).2.1 q.srs
        ("image/" ++ q.format)).2.1 := by
  simp only [get_map]
  repeat' split
  all_goals simp_all

theorem crs_map_inv_get_map (cfg : Config) (env : Env) (st : SourceState) (q : MapQuery)
    (hm : crs_map_inv env st.map_crs_to_tilesets_list) :
    crs_map_inv env ((get_map cfg env st q).2.1).map_crs_to_tilesets_list := by
  rcases get_map_state_source cfg env st q with h | h
  · rw [h]
    exact crs_map_inv_initDiscovery cfg env st hm
  · rw [h]
    rw [srs_map_unchanged]
    exact crs_map_inv_initDiscovery cfg env st hm

theorem initDiscovery_success_map (cfg : Config) (env : Env) (st : SourceState)
    (d1 : Doc) (links : List Link) (turl : String) (d2 : Doc) (ts : List Tileset)
    (h0 : st.init_done = false)
    (h2 : env.fetch (collection_url cfg) = .doc d1)
    (h3 : d1.links? = some links)
    (h4 : py_not_str (find_href_in_links links tilesets_map_rel "application/json") = false)
    (h5 : build_url_py cfg
      (find_href_in_links links tilesets_map_rel "application/json") = .ok turl)
    (h6 : env.fetch turl = .doc d2)
    (h7 : d2.tilesets? = some ts) :
    ((initDiscovery cfg env st).2.1).map_crs_to_tilesets_list =
      add_tilesets env.authCode st.map_crs_to_tilesets_list ts := by
  simp only [initDiscovery, h0, h2, h3, h4, h5, h6, h7]
  simp

/-- C7: a successful discovery from a fresh state stores, for every key,
exactly the catalog entries whose dataType is map and whose normalized
CRS code equals that key, in catalog order; an entry whose authority code
is OGC:CRS84 lands in the EPSG:4326 bucket; and the invariant that every
stored descriptor has dataType map and the key of its bucket is preserved
by discovery, by resolution and by get_map. -/
theorem c7_discovery_bucketing :
    (∀ (cfg : Config) (env : Env) (st : SourceState) (d1 : Doc) (links : List Link)
        (turl : String) (d2 : Doc) (ts : List Tileset),
      st.init_done = false →
      st.map_crs_to_tilesets_list = [] →
      env.fetch (collection_url cfg) = .doc d1 →
      d1.links? = some links →
      py_not_str (find_href_in_links links tilesets_map_rel "application/json") = false →
      build_url_py cfg
        (find_href_in_links links tilesets_map_rel "application/json") = .ok turl →
      env.fetch turl = .doc d2 →
      d2.tilesets? = some ts →
      (∀ k, lookupA ((initDiscovery cfg env st).2.1).map_crs_to_tilesets_list k =
          (if (ts.filter (fun t => t.dataType == "map" && (tileset_key env t == k))).isEmpty
           then none
           else some (ts.filter (fun t => t.dataType == "map" && (tileset_key env t == k)))))
      ∧ (∀ t ∈ ts, t.dataType = "map" → env.authCode t.crs = "OGC:CRS84" →
          ∃ b, lookupA ((initDiscovery cfg env st).2.1).map_crs_to_tilesets_list
              "EPSG:4326" = some b ∧ t ∈ b))
    ∧ (∀ (cfg : Config) (env : Env) (st : SourceState),
        crs_map_inv env st.map_crs_to_tilesets_list →
        crs_map_inv env ((initDiscovery cfg env st).2.1).map_crs_to_tilesets_list)
    ∧ (∀ (cfg : Config) (env : Env) (st : SourceState) (qs mime : String),
        crs_map_inv env st.map_crs_to_tilesets_list →
        crs_map_inv env ((get_grid_and_template_url_from_srs cfg env st qs
            mime).2.1).map_crs_to_tilesets_list)
    ∧ (∀ (cfg : Config) (env : Env) (st : SourceState) (q : MapQuery),
        crs_map_inv env st.map_crs_to_tilesets_list →
        crs_map_inv env ((get_map cfg env st q).2.1).map_crs_to_tilesets_list) := by
  refine ⟨?_, crs_map_inv_initDiscovery, ?_, crs_map_inv_get_map⟩
  · intro cfg env st d1 links turl d2 ts h0 h1 h2 h3 h4 h5 h6 h7
    have hmap := initDiscovery_success_map cfg env st d1 links turl d2 ts h0 h2 h3 h4 h5 h6 h7
    have hk1 : ∀ k, lookupA ((initDiscovery cfg env st).2.1).map_crs_to_tilesets_list k =
        (if (ts.filter (fun t => t.dataType == "map" && (tileset_key env t == k))).isEmpty
         then none
         else some (ts.filter (fun t => t.dataType == "map" && (tileset_key env t == k)))) := by
      intro k
      rw [hmap, h1, lookupA_add_tilesets]
      simp only [lookupA, combineB, tileset_key]
    refine ⟨hk1, ?_⟩
    intro t htmem htd hcrs
    have hpred : (t.dataType == "map" && (tileset_key env t == "EPSG:4326")) = true := by
      simp [htd, tileset_key, hcrs, normalize_srs_code]
    have htf : t ∈ ts.filter
        (fun t => t.dataType == "map" && (tileset_key env t == "EPSG:4326")) :=
      List.mem_filter.2 ⟨htmem, hpred⟩
    have hne : (ts.filter
        (fun t => t.dataType == "map" && (tileset_key env t == "EPSG:4326"))).isEmpty
        = false := by
      cases hfe : ts.filter
          (fun t => t.dataType == "map" && (tileset_key env t == "EPSG:4326")) with
      | nil => rw [hfe] at htf; cases htf
      | cons a l => simp
    refine ⟨ts.filter (fun t => t.dataType == "map" && (tileset_key env t == "EPSG:4326")),
      ?_, htf⟩
    rw [hk1 "EPSG:4326", hne]
    simp
  · intro cfg env st qs mime hm
    rw [srs_map_unchanged]
    exact hm

/-- The demo collection document. -/
def d1c : Doc :=
  { links? :=
      some [{ rel := tilesets_map_rel, type? := some "application/json",
              href := "/tilesets" }] }

/-- The demo tilesets-map document. -/
def d2c : Doc := { tilesets? := some [ts0] }

theorem hmW_inv : crs_map_inv env0 stW.map_crs_to_tilesets_list := by
  unfold crs_map_inv tileset_key
  decide

/-- C7 witness: the demo discovery stores the single map tileset in the
EPSG:3857 bucket, and the invariant holds after discovery, resolution and
get_map on the demo instance. -/
theorem c7_discovery_bucketing_witness :
    lookupA ((initDiscovery cfg0 env0 st0).2.1).map_crs_to_tilesets_list "EPSG:3857" =
      (if (([ts0] : List Tileset).filter
          (fun t => t.dataType == "map" && (tileset_key env0 t == "EPSG:3857"))).isEmpty
       then none
       else some (([ts0] : List Tileset).filter
          (fun t => t.dataType == "map" && (tileset_key env0 t == "EPSG:3857"))))
    ∧ crs_map_inv env0 ((initDiscovery cfg0 env0 stW).2.1).map_crs_to_tilesets_list
    ∧ crs_map_inv env0
        ((get_grid_and_template_url_from_srs cfg0 env0 stW "EPSG:3857"
            "image/png").2.1).map_crs_to_tilesets_list
    ∧ crs_map_inv env0 ((get_map cfg0 env0 stW q256).2.1).map_crs_to_tilesets_list :=
  ⟨(c7_discovery_bucketing.1 cfg0 env0 st0 d1c
      [{ rel := tilesets_map_rel, type? := some "application/json", href := "/tilesets" }]
      "https://example.org/tilesets" d2c [ts0]
      rfl rfl rfl rfl rfl rfl rfl rfl).1 "EPSG:3857",
   c7_discovery_bucketing.2.1 cfg0 env0 stW hmW_inv,
   c7_discovery_bucketing.2.2.1 cfg0 env0 stW "EPSG:3857" "image/png" hmW_inv,
   c7_discovery_bucketing.2.2.2 cfg0 env0 stW q256 hmW_inv⟩
